import Mathlib

/-!
Verification of the subtitle-ninja caption core.

This file gives a shallow embedding of the caption-generation pipeline of
the repository (src/workflows/style_config.py, src/workflows/process_video.py,
src/workflows/ass_renderer.py) and proves properties of it.

Conventions of the embedding:
* Python floats (timestamps, ratios) are modelled as exact rationals.
* Python strings are Lean Strings; where the code slices strings by
  character index, the embedding works on the character list of the string.
* Python dicts produced by the word grouper and consumed by the renderer
  are modelled by the structure Segment; keys read through dict.get with a
  default are modelled as Option fields.
* Multi-line generated text (triple-quoted f-strings plus joined dialogue
  lines) is modelled as the list of its lines; the flat text is their
  intercalation with a newline.
* File writing (the renderer writes the text under /tmp and returns the
  path) is I/O glue and is not part of the embedding; the embedded
  functions return the generated content itself.
-/

/-- Python int() applied to a rational: truncation toward zero. -/
def pyInt (q : ℚ) : ℤ :=
  if 0 ≤ q then ⌊q⌋ else ⌈q⌉

/-- Python float modulo for the cases used here: a % b = a - b * (a // b),
which for b > 0 always lies in [0, b). -/
def pyMod (a b : ℚ) : ℚ :=
  a - b * ⌊a / b⌋

/-- Zero padding of a rendered integer to a minimal width, as Python
produces for the nonnegative field values fed to it here (e.g. 02d, 03d). -/
def padZ (w : ℕ) (n : ℤ) : String :=
  let s := toString n
  if s.length < w then String.mk (List.replicate (w - s.length) '0') ++ s else s

/-- Boolean test that the first character list is an initial run of the
second (used to classify generated lines by their leading text). -/
def isPrefixChars : List Char → List Char → Bool
  | [], _ => true
  | _ :: _, [] => false
  | p :: ps, c :: cs => p == c && isPrefixChars ps cs

/-- A string starts with the given string (character-wise). -/
def strStarts (p s : String) : Bool :=
  isPrefixChars p.data s.data

/-- Number of lines that start with the given text. -/
def countStarting (p : String) (lines : List String) : ℕ :=
  (lines.filter (fun l => strStarts p l)).length

/-! ## Data model (spec section 3, from the shapes used by the code) -/

/-- A transcribed word with its time stamps
(process_video.py, transcribe_audio builds these dicts). -/
structure Word where
  start : ℚ
  end_ : ℚ
  text : String
deriving DecidableEq

/-- A display segment as built by VideoProcessor.create_word_groups and
consumed by ASSRenderer.  The renderer reads the keys words and
display_text through dict.get with a default, so they are Option fields;
start and end are read directly. -/
structure Segment where
  start : ℚ
  end_ : ℚ
  words : Option (List String)
  current_word_index : ℕ
  current_word : String
  display_text : Option String
deriving DecidableEq

/-- src/workflows/style_config.py, dataclass StyleConfig with its
field defaults. -/
structure StyleConfig where
  font_family : String := "Arial"
  font_size_ratio : ℚ := 0.05
  font_weight : String := "bold"
  base_color : String := "&Hffffff"
  highlight_color : String := "&H00d7ff"
  outline_color : String := "&H000000"
  highlight_style : String := "color_change"
  outline_width : ℤ := 2
  glow_enabled : Bool := false
  glow_intensity : String := "none"
  words_per_line : ℤ := 3
  position : String := "bottom"
  alignment : ℤ := 2
  margin_ratio : ℚ := 0.08
  background_enabled : Bool := false
  background_color : String := "&H80000000"
  background_opacity : ℤ := 80
deriving DecidableEq

/-! ## Word grouper (process_video.py, VideoProcessor.create_word_groups) -/

namespace VideoProcessor

/-- The texts of the window words[i : i + words_per_group]: the inner loop
for j in range(words_per_group) appending words[i+j]["text"] while
i + j < len(words). -/
def windowTexts (ws : List Word) (words_per_group : ℕ) : List String :=
  (ws.take words_per_group).map Word.text

/-- One iteration of the loop body of create_word_groups, at the suffix of
the word list whose head is words[i]: group_start is words[i].start;
group_end is words[i+1].start when a next word exists, else words[i].end;
the group words are the texts of the window. -/
def groupAt (w : Word) (rest : List Word) (words_per_group : ℕ) : Segment :=
  let group_words := windowTexts (w :: rest) words_per_group
  { start := w.start
    end_ := match rest with
      | [] => w.end_
      | w2 :: _ => w2.start
    words := some group_words
    current_word_index := 0
    current_word := group_words.headD ""
    display_text := some (String.intercalate " " group_words) }

/-- The loop for i in range(len(words)) of create_word_groups, expressed as
recursion over the suffix starting at index i. -/
def groupsAux (words_per_group : ℕ) : List Word → List Segment
  | [] => []
  | w :: rest => groupAt w rest words_per_group :: groupsAux words_per_group rest

/-- VideoProcessor.create_word_groups (default words_per_group = 3).
The guard if not words: return [] coincides with the base case of the
recursion. -/
def create_word_groups (words : List Word) (words_per_group : ℕ) : List Segment :=
  groupsAux words_per_group words

/-- VideoProcessor.seconds_to_srt_time: HH:MM:SS,mmm.  The Python source
computes int(seconds // 3600), int((seconds % 3600) // 60),
int(seconds % 60) and int((seconds % 1) * 1000); since // already floors
and the modulo results are nonnegative, each int() is the floor written
here. -/
def seconds_to_srt_time (seconds : ℚ) : String :=
  let hours : ℤ := ⌊seconds / 3600⌋
  let minutes : ℤ := ⌊pyMod seconds 3600 / 60⌋
  let secs : ℤ := ⌊pyMod seconds 60⌋
  let millisecs : ℤ := ⌊pyMod seconds 1 * 1000⌋
  padZ 2 hours ++ ":" ++ padZ 2 minutes ++ ":" ++ padZ 2 secs ++ "," ++ padZ 3 millisecs

end VideoProcessor

theorem groupsAux_length (wpg : ℕ) (ws : List Word) :
    (VideoProcessor.groupsAux wpg ws).length = ws.length := by
  induction ws with
  | nil => rfl
  | cons w rest ih => simp [VideoProcessor.groupsAux, ih]

theorem groupsAux_getElem (wpg : ℕ) (ws : List Word) :
    ∀ i w, ws[i]? = some w →
      ∃ g, (VideoProcessor.groupsAux wpg ws)[i]? = some g ∧
        g.words = some (((ws.drop i).take wpg).map Word.text) ∧
        g.start = w.start ∧
        (∀ w2, ws[i + 1]? = some w2 → g.end_ = w2.start) ∧
        (ws[i + 1]? = none → g.end_ = w.end_) := by
  induction ws with
  | nil => intro i w h; simp at h
  | cons a rest ih =>
    intro i w h
    cases i with
    | zero =>
      simp only [List.getElem?_cons_zero, Option.some.injEq] at h
      subst h
      refine ⟨VideoProcessor.groupAt a rest wpg, by simp [VideoProcessor.groupsAux], ?_, rfl, ?_, ?_⟩
      · simp [VideoProcessor.groupAt, VideoProcessor.windowTexts]
      · intro w2 h2
        cases rest with
        | nil => simp at h2
        | cons b rest2 =>
          simp only [List.getElem?_cons_succ, List.getElem?_cons_zero, Option.some.injEq] at h2
          subst h2
          rfl
      · intro h2
        cases rest with
        | nil => rfl
        | cons b rest2 => simp at h2
    | succ n =>
      simp only [List.getElem?_cons_succ] at h
      obtain ⟨g, hg, hw, hs, he1, he2⟩ := ih n w h
      exact ⟨g, by simpa [VideoProcessor.groupsAux] using hg, by simpa using hw, hs,
        by simpa using he1, by simpa using he2⟩

/-- C1: for every ordered word sequence and every positive words_per_group,
create_word_groups returns one segment per input word; segment i carries the
texts of words[i : i + words_per_group], starts at words[i].start, and ends
at words[i+1].start when a next word exists, else at words[i].end; the
output length equals the input length. -/
theorem C1_create_word_groups_window (ws : List Word) (wpg : ℕ) (hpos : 0 < wpg) :
    (VideoProcessor.create_word_groups ws wpg).length = ws.length ∧
    ∀ i w, ws[i]? = some w →
      ∃ g, (VideoProcessor.create_word_groups ws wpg)[i]? = some g ∧
        g.words = some (((ws.drop i).take wpg).map Word.text) ∧
        g.start = w.start ∧
        (∀ w2, ws[i + 1]? = some w2 → g.end_ = w2.start) ∧
        (ws[i + 1]? = none → g.end_ = w.end_) :=
  ⟨groupsAux_length wpg ws, groupsAux_getElem wpg ws⟩

/-- The worked example of the spec: three words hello / there / friend. -/
def demoWords : List Word :=
  [⟨0, 0.5, "hello"⟩, ⟨0.5, 1.2, "there"⟩, ⟨1.2, 1.8, "friend"⟩]

theorem C1_create_word_groups_window_witness :
    0 < 3 ∧ (VideoProcessor.create_word_groups demoWords 3).length = demoWords.length :=
  ⟨by decide, (C1_create_word_groups_window demoWords 3 (by decide)).1⟩

/-- C2: consecutive segments of the word grouper are contiguous in time:
the end of segment i is the start of segment i+1 whenever both exist. -/
theorem C2_segments_contiguous (ws : List Word) (wpg : ℕ) (i : ℕ) (s1 s2 : Segment)
    (h1 : (VideoProcessor.create_word_groups ws wpg)[i]? = some s1)
    (h2 : (VideoProcessor.create_word_groups ws wpg)[i + 1]? = some s2) :
    s1.end_ = s2.start := by
  induction ws generalizing i with
  | nil => simp [VideoProcessor.create_word_groups, VideoProcessor.groupsAux] at h1
  | cons a rest ih =>
    simp only [VideoProcessor.create_word_groups, VideoProcessor.groupsAux] at h1 h2
    cases i with
    | zero =>
      simp only [List.getElem?_cons_zero, Option.some.injEq] at h1
      simp only [List.getElem?_cons_succ] at h2
      subst h1
      cases rest with
      | nil => simp [VideoProcessor.groupsAux] at h2
      | cons b rest2 =>
        simp only [VideoProcessor.groupsAux, List.getElem?_cons_zero, Option.some.injEq] at h2
        subst h2
        rfl
    | succ n =>
      simp only [List.getElem?_cons_succ] at h1 h2
      exact ih n h1 h2

def demoSeg0 : Segment :=
  { start := 0, end_ := 0.5, words := some ["hello", "there", "friend"],
    current_word_index := 0, current_word := "hello",
    display_text := some "hello there friend" }

def demoSeg1 : Segment :=
  { start := 0.5, end_ := 1.2, words := some ["there", "friend"],
    current_word_index := 0, current_word := "there",
    display_text := some "there friend" }

theorem C2_segments_contiguous_witness :
    (VideoProcessor.create_word_groups demoWords 3)[0]? = some demoSeg0 ∧
    (VideoProcessor.create_word_groups demoWords 3)[1]? = some demoSeg1 ∧
    demoSeg0.end_ = demoSeg1.start :=
  ⟨rfl, rfl,
    C2_segments_contiguous demoWords 3 0 demoSeg0 demoSeg1 rfl rfl⟩

/-! ## Style presets (style_config.py, class StylePresets) -/

namespace StylePresets

/-- The preset instagram_classic of StylePresets.get_preset; the remaining
fields keep the dataclass defaults. -/
def instagram_classic : StyleConfig :=
  { font_family := "Arial", font_size_ratio := 0.05,
    base_color := "&Hffffff", highlight_color := "&H00d7ff",
    outline_color := "&H000000", highlight_style := "color_change",
    outline_width := 2, words_per_line := 3, position := "bottom",
    margin_ratio := 0.08 }

/-- The preset tiktok_viral. -/
def tiktok_viral : StyleConfig :=
  { font_family := "Arial", font_size_ratio := 0.055,
    base_color := "&Hffffff", highlight_color := "&Hffff00",
    outline_color := "&H000000", highlight_style := "glow_pulse",
    outline_width := 1, glow_enabled := true, glow_intensity := "strong",
    words_per_line := 4, position := "bottom", margin_ratio := 0.07 }

/-- The preset youtube_professional. -/
def youtube_professional : StyleConfig :=
  { font_family := "Arial", font_size_ratio := 0.045,
    base_color := "&Hffffff", highlight_color := "&H0000ff",
    outline_color := "&H000000", highlight_style := "background_highlight",
    outline_width := 2, background_enabled := true,
    background_color := "&H80000000", background_opacity := 70,
    words_per_line := 3, position := "bottom", margin_ratio := 0.09 }

/-- The preset minimalist. -/
def minimalist : StyleConfig :=
  { font_family := "Arial", font_size_ratio := 0.04,
    base_color := "&Hffffff", highlight_color := "&He2904a",
    outline_color := "&H404040", highlight_style := "scale_up",
    outline_width := 1, words_per_line := 3, position := "center",
    margin_ratio := 0.1 }

/-- The preset gaming. -/
def gaming : StyleConfig :=
  { font_family := "Arial", font_size_ratio := 0.06,
    base_color := "&Hffffff", highlight_color := "&H00ff00",
    outline_color := "&H000000", highlight_style := "glow_pulse",
    outline_width := 3, glow_enabled := true, glow_intensity := "strong",
    words_per_line := 2, position := "bottom", margin_ratio := 0.06 }

/-- The dict presets built inside StylePresets.get_preset, as an
association list in its construction order. -/
def presets : List (String × StyleConfig) :=
  [("instagram_classic", instagram_classic),
   ("tiktok_viral", tiktok_viral),
   ("youtube_professional", youtube_professional),
   ("minimalist", minimalist),
   ("gaming", gaming)]

/-- StylePresets.get_preset: presets.get(preset_name,
presets["instagram_classic"]). -/
def get_preset (preset_name : String) : StyleConfig :=
  (presets.lookup preset_name).getD instagram_classic

/-- StylePresets.list_presets. -/
def list_presets : List String :=
  ["instagram_classic", "tiktok_viral", "youtube_professional", "minimalist", "gaming"]

end StylePresets

/-- C8: an unrecognized preset name falls back to the configuration of
instagram_classic; get_preset is total, so it never fails on any string. -/
theorem C8_get_preset_fallback (name : String) (h : name ∉ StylePresets.list_presets) :
    StylePresets.get_preset name = StylePresets.get_preset "instagram_classic" := by
  simp only [StylePresets.list_presets, List.mem_cons, List.not_mem_nil, or_false, not_or] at h
  obtain ⟨h1, h2, h3, h4, h5⟩ := h
  simp [StylePresets.get_preset, StylePresets.presets, List.lookup,
    beq_eq_false_iff_ne.mpr h1, beq_eq_false_iff_ne.mpr h2, beq_eq_false_iff_ne.mpr h3,
    beq_eq_false_iff_ne.mpr h4, beq_eq_false_iff_ne.mpr h5]

theorem C8_get_preset_fallback_witness :
    "nonexistent_name" ∉ StylePresets.list_presets ∧
    StylePresets.get_preset "nonexistent_name" = StylePresets.get_preset "instagram_classic" :=
  ⟨by decide, C8_get_preset_fallback "nonexistent_name" (by decide)⟩

/-! ## Color conversion (style_config.py, module level) -/

/-- Character-level body of convert_hex_to_ass_color: strip one leading
hash sign as hex_color.startswith, then when exactly 6 characters remain,
reorder the three 2-character slices RRGGBB into the packed BBGGRR form. -/
def hexToAssChars (l : List Char) : List Char :=
  let l' := if l.head? = some '#' then l.tail else l
  if l'.length = 6 then
    let r := l'.take 2
    let g := (l'.drop 2).take 2
    let b := (l'.drop 4).take 2
    "&H".data ++ (b ++ (g ++ r))
  else
    "&Hffffff".data

/-- style_config.convert_hex_to_ass_color. -/
def convert_hex_to_ass_color (hex_color : String) : String :=
  String.mk (hexToAssChars hex_color.data)

/-- Character-level body of convert_ass_to_hex_color: when the input
starts with the two characters of the packed form marker and has at least
8 characters, reorder characters 2..8 back to hex and uppercase. -/
def assToHexChars (l : List Char) : List Char :=
  if isPrefixChars "&H".data l = true ∧ 8 ≤ l.length then
    let color_part := (l.drop 2).take 6
    let b := color_part.take 2
    let g := (color_part.drop 2).take 2
    let r := (color_part.drop 4).take 2
    ('#' :: (r ++ (g ++ b))).map Char.toUpper
  else
    "#FFFFFF".data

/-- style_config.convert_ass_to_hex_color. -/
def convert_ass_to_hex_color (ass_color : String) : String :=
  String.mk (assToHexChars ass_color.data)

/-- A hexadecimal digit character (either case). -/
def isHexDigitChar (c : Char) : Bool :=
  c.isDigit || "abcdefABCDEF".data.contains c

/-- A well-formed 6-hex-digit color string in the sense of the spec: after
stripping one optional leading hash sign, exactly six hex digits remain. -/
def isWellFormedHex (s : String) : Bool :=
  let l := if s.data.head? = some '#' then s.data.tail else s.data
  (l.length == 6) && l.all isHexDigitChar

theorem isHexDigitChar_ne_hash {c : Char} (h : isHexDigitChar c = true) : ¬(c = '#') := by
  intro he
  subst he
  simp [isHexDigitChar] at h

/-- C5: for every well-formed 6-hex-digit color string, with or without a
leading hash sign and in any letter case, converting to the packed form
and back is the identity up to uppercasing: the round trip returns the six
digits uppercased behind a hash sign. -/
theorem C5_color_roundtrip (c1 c2 c3 c4 c5 c6 : Char) (withHash : Bool)
    (hx : [c1, c2, c3, c4, c5, c6].all isHexDigitChar = true) :
    convert_ass_to_hex_color (convert_hex_to_ass_color
        (String.mk ((if withHash then ['#'] else []) ++ [c1, c2, c3, c4, c5, c6]))) =
      String.mk ('#' :: ([c1, c2, c3, c4, c5, c6].map Char.toUpper)) := by
  simp only [List.all_cons, List.all_nil, Bool.and_eq_true] at hx
  have h1 : ¬(c1 = '#') := isHexDigitChar_ne_hash hx.1
  cases withHash with
  | false =>
    simp only [Bool.false_eq_true, if_false, List.nil_append]
    simp [convert_hex_to_ass_color, convert_ass_to_hex_color, hexToAssChars,
      assToHexChars, h1, isPrefixChars]
  | true =>
    simp only [if_true, List.cons_append, List.nil_append]
    simp [convert_hex_to_ass_color, convert_ass_to_hex_color, hexToAssChars,
      assToHexChars, isPrefixChars]

theorem C5_color_roundtrip_witness :
    ['a', 'b', 'c', 'd', 'e', 'f'].all isHexDigitChar = true ∧
    convert_ass_to_hex_color (convert_hex_to_ass_color
        (String.mk ((if true then ['#'] else []) ++ ['a', 'b', 'c', 'd', 'e', 'f']))) =
      String.mk ('#' :: (['a', 'b', 'c', 'd', 'e', 'f'].map Char.toUpper)) :=
  ⟨by decide, C5_color_roundtrip 'a' 'b' 'c' 'd' 'e' 'f' true (by decide)⟩

/-- C7 counterexample: the string zzzzzz is not a well-formed 6-hex-digit
color, yet convert_hex_to_ass_color passes its characters through instead
of returning the default white: the code only checks the length, never
that the characters are hex digits. -/
theorem C7_counterexample :
    isWellFormedHex "zzzzzz" = false ∧
    convert_hex_to_ass_color "zzzzzz" = "&Hzzzzzz" ∧
    convert_hex_to_ass_color "zzzzzz" ≠ "&Hffffff" := by
  refine ⟨by decide, by decide, by decide⟩

/-- C7 amended: for every input string whose length after stripping one
optional leading hash sign is not exactly 6 characters,
convert_hex_to_ass_color returns the fixed default white color. -/
theorem C7_default_on_bad_length (s : String)
    (h : (if s.data.head? = some '#' then s.data.tail else s.data).length ≠ 6) :
    convert_hex_to_ass_color s = "&Hffffff" := by
  by_cases hc : s.data.head? = some '#' <;>
    simp_all [convert_hex_to_ass_color, hexToAssChars]

theorem C7_default_on_bad_length_witness :
    (if ("abc" : String).data.head? = some '#'
      then ("abc" : String).data.tail else ("abc" : String).data).length ≠ 6 ∧
    convert_hex_to_ass_color "abc" = "&Hffffff" :=
  ⟨by decide, C7_default_on_bad_length "abc" (by decide)⟩

/-! ## Subtitle compiler (ass_renderer.py, class ASSRenderer) -/

namespace ASSRenderer

/-- ASSRenderer._seconds_to_ass_time: H:MM:SS.cc.  The Python source
computes int(seconds // 3600), int((seconds % 3600) // 60),
int(seconds % 60) and int((seconds % 1) * 100); since // already floors
and the modulo results are nonnegative, each int() is the floor written
here. -/
def seconds_to_ass_time (seconds : ℚ) : String :=
  let hours : ℤ := ⌊seconds / 3600⌋
  let minutes : ℤ := ⌊pyMod seconds 3600 / 60⌋
  let secs : ℤ := ⌊pyMod seconds 60⌋
  let centisecs : ℤ := ⌊pyMod seconds 1 * 100⌋
  toString hours ++ ":" ++ padZ 2 minutes ++ ":" ++ padZ 2 secs ++ "." ++ padZ 2 centisecs

/-- ASSRenderer._get_highlight_scale. -/
def get_highlight_scale (style : StyleConfig) : ℤ :=
  if style.highlight_style = "scale_up" then 120 else 100

/-- The i = 0 branch of the loop of ASSRenderer._create_styled_text:
markup wrapped around the first (highlighted) word, by highlight style.
Literal braces of the ASS override tags are written escaped. -/
def styledFirstWord (style : StyleConfig) (word : String) : String :=
  if style.highlight_style = "color_change" then
    "\x7b\\c" ++ style.highlight_color ++ "&\x7d" ++ word ++
      "\x7b\\c" ++ style.base_color ++ "&\x7d"
  else if style.highlight_style = "scale_up" then
    "\x7b\\fscx" ++ toString (get_highlight_scale style) ++ "\\fscy" ++
      toString (get_highlight_scale style) ++ "\\c" ++ style.highlight_color ++ "&\x7d" ++
      word ++ "\x7b\\fscx100\\fscy100\\c" ++ style.base_color ++ "&\x7d"
  else if style.highlight_style = "glow_pulse" then
    if style.glow_enabled then
      "\x7b\\c" ++ style.highlight_color ++ "&\\3c" ++ style.outline_color ++ "&\\4c" ++
        style.highlight_color ++ "&\\bord" ++ toString style.outline_width ++ "\\shad" ++
        toString (if style.glow_intensity = "strong" then (3 : ℤ) else 2) ++ "\x7d" ++ word ++
        "\x7b\\c" ++ style.base_color ++ "&\\3c" ++ style.outline_color ++
        "&\\4c&H00000000&\\bord2\\shad0\x7d"
    else
      "\x7b\\c" ++ style.highlight_color ++ "&\x7d" ++ word ++
        "\x7b\\c" ++ style.base_color ++ "&\x7d"
  else if style.highlight_style = "background_highlight" then
    "\x7b\\c" ++ style.base_color ++ "&\\3c" ++ style.highlight_color ++ "&\\bord6\x7d" ++
      word ++ "\x7b\\3c" ++ style.outline_color ++ "&\\bord2\x7d"
  else
    "\x7b\\c" ++ style.highlight_color ++ "&\x7d" ++ word ++
      "\x7b\\c" ++ style.base_color ++ "&\x7d"

/-- ASSRenderer._create_styled_text: words = segment.get(words, []); when
that is empty return segment.get(display_text, ""); otherwise style the
first word, pass the others through, and join with spaces. -/
def create_styled_text (segment : Segment) (style : StyleConfig) : String :=
  match segment.words.getD [] with
  | [] => segment.display_text.getD ""
  | w :: rest => String.intercalate " " (styledFirstWord style w :: rest)

/-- One dialogue event line of _generate_ass_content's loop. -/
def dialogue_line (style : StyleConfig) (segment : Segment) : String :=
  "Dialogue: 0," ++ seconds_to_ass_time segment.start ++ "," ++
    seconds_to_ass_time segment.end_ ++ ",Default,,0,0,0,," ++
    create_styled_text segment style

/-- The Style: Default record line of _generate_header. -/
def style_default_line (font_size : ℤ) (margin_side : ℤ) (margin_bottom : ℤ)
    (style : StyleConfig) : String :=
  "Style: Default," ++ style.font_family ++ "," ++ toString font_size ++ "," ++
    style.base_color ++ "," ++ style.base_color ++ "," ++ style.outline_color ++ "," ++
    (if style.background_enabled then style.background_color else "&H80000000") ++
    ",1,0,0,0,100,100,0,0,1," ++ toString style.outline_width ++ ",0," ++
    toString style.alignment ++ "," ++ toString margin_side ++ "," ++
    toString margin_side ++ "," ++ toString margin_bottom ++ ",1"

/-- The Style: Highlight record line of _generate_header. -/
def style_highlight_line (font_size : ℤ) (margin_side : ℤ) (margin_bottom : ℤ)
    (style : StyleConfig) : String :=
  "Style: Highlight," ++ style.font_family ++ "," ++ toString font_size ++ "," ++
    style.highlight_color ++ "," ++ style.highlight_color ++ "," ++ style.outline_color ++ "," ++
    (if style.background_enabled then style.background_color else "&H80000000") ++
    ",1,0,0,0," ++ toString (get_highlight_scale style) ++ "," ++
    toString (get_highlight_scale style) ++ ",0,0,1," ++ toString style.outline_width ++
    ",0," ++ toString style.alignment ++ "," ++ toString margin_side ++ "," ++
    toString margin_side ++ "," ++ toString margin_bottom ++ ",1"

/-- ASSRenderer._generate_header, line by line. -/
def generate_header_lines (font_size : ℤ) (margin_side : ℤ) (margin_bottom : ℤ)
    (style : StyleConfig) : List String :=
  ["[Script Info]",
   "Title: Subtitle Ninja - " ++ style.font_family,
   "ScriptType: v4.00+",
   "",
   "[V4+ Styles]",
   "Format: Name, Fontname, Fontsize, PrimaryColour, SecondaryColour, OutlineColour, BackColour, Bold, Italic, Underline, StrikeOut, ScaleX, ScaleY, Spacing, Angle, BorderStyle, Outline, Shadow, Alignment, MarginL, MarginR, MarginV, Encoding",
   style_default_line font_size margin_side margin_bottom style,
   style_highlight_line font_size margin_side margin_bottom style,
   "",
   "[Events]",
   "Format: Layer, Start, End, Style, Name, MarginL, MarginR, MarginV, Effect, Text"]

/-- font_size = max(int(height * style.font_size_ratio), 16), as computed
in _generate_ass_content and _generate_empty_ass_file. -/
def font_size_of (height : ℕ) (style : StyleConfig) : ℤ :=
  max (pyInt ((height : ℚ) * style.font_size_ratio)) 16

/-- margin_bottom = max(int(height * style.margin_ratio), 20), as computed
in _generate_ass_content and _generate_empty_ass_file. -/
def margin_bottom_of (height : ℕ) (style : StyleConfig) : ℤ :=
  max (pyInt ((height : ℚ) * style.margin_ratio)) 20

/-- ASSRenderer._generate_ass_content as its list of lines: the header
(margin_side = 20) followed by one dialogue line per segment. -/
def generate_ass_content_lines (segments : List Segment) (width height : ℕ)
    (style : StyleConfig) : List String :=
  generate_header_lines (font_size_of height style) 20 (margin_bottom_of height style) style ++
    segments.map (dialogue_line style)

/-- The single Style: Default record line of _generate_empty_ass_file
(fixed back colour, outline 2, alignment 2, side margins 20). -/
def empty_style_line (style : StyleConfig) (height : ℕ) : String :=
  "Style: Default," ++ style.font_family ++ "," ++ toString (font_size_of height style) ++
    "," ++ style.base_color ++ "," ++ style.base_color ++ "," ++ style.outline_color ++
    ",&H80000000,1,0,0,0,100,100,0,0,1,2,0,2,20,20," ++
    toString (margin_bottom_of height style) ++ ",1"

/-- ASSRenderer._generate_empty_ass_file as its list of lines (the source
string ends in a newline, hence the final empty line). -/
def generate_empty_ass_lines (style : StyleConfig) (width height : ℕ) : List String :=
  ["[Script Info]",
   "Title: Subtitle Ninja",
   "ScriptType: v4.00+",
   "",
   "[V4+ Styles]",
   "Format: Name, Fontname, Fontsize, PrimaryColour, SecondaryColour, OutlineColour, BackColour, Bold, Italic, Underline, StrikeOut, ScaleX, ScaleY, Spacing, Angle, BorderStyle, Outline, Shadow, Alignment, MarginL, MarginR, MarginV, Encoding",
   empty_style_line style height,
   "",
   "[Events]",
   "Format: Layer, Start, End, Style, Name, MarginL, MarginR, MarginV, Effect, Text",
   "Dialogue: 0,0:00:00.00,0:00:05.00,Default,,0,0,0,,No speech detected",
   ""]

/-- ASSRenderer.render_subtitles, content selection: the empty fallback
for an empty segment list, the full content otherwise (the file write is
I/O and not modelled). -/
def render_subtitles_lines (segments : List Segment) (width height : ℕ)
    (style : StyleConfig) : List String :=
  if segments = [] then generate_empty_ass_lines style width height
  else generate_ass_content_lines segments width height style

/-- The flat markup text of _generate_ass_content: the header (which ends
with a newline in the source) followed by the newline-joined dialogue
lines. -/
def generate_ass_content (segments : List Segment) (width height : ℕ)
    (style : StyleConfig) : String :=
  String.intercalate "\n"
      (generate_header_lines (font_size_of height style) 20 (margin_bottom_of height style) style)
    ++ "\n" ++ String.intercalate "\n" (segments.map (dialogue_line style))

/-- The flat markup text of _generate_empty_ass_file. -/
def generate_empty_ass_file (style : StyleConfig) (width height : ℕ) : String :=
  String.intercalate "\n" (generate_empty_ass_lines style width height)

end ASSRenderer

/-- The string fields of a style that are interpolated into generated
lines contain no newline (so the line decomposition of the generated text
is the one modelled here). -/
def StyleConfig.noNewlines (s : StyleConfig) : Bool :=
  !(s.font_family.data.contains '\n') && !(s.base_color.data.contains '\n') &&
  !(s.highlight_color.data.contains '\n') && !(s.outline_color.data.contains '\n') &&
  !(s.background_color.data.contains '\n')

/-- The text fields of a segment that are interpolated into its dialogue
line contain no newline. -/
def Segment.noNewlines (g : Segment) : Bool :=
  ((g.words.getD []).all (fun w => !(w.data.contains '\n'))) &&
  !((g.display_text.getD "").data.contains '\n')

/-- C10: for every segment whose words entry is absent or empty, the
styled-text construction returns the display_text value unchanged (the
empty string when display_text is absent too), with no highlight markup. -/
theorem C10_styled_text_no_words (segment : Segment) (style : StyleConfig)
    (h : segment.words = none ∨ segment.words = some []) :
    ASSRenderer.create_styled_text segment style = segment.display_text.getD "" := by
  rcases h with h | h <;> simp [ASSRenderer.create_styled_text, h]

theorem C10_styled_text_no_words_witness :
    ({ start := 0, end_ := 1, words := none, current_word_index := 0,
       current_word := "", display_text := none } : Segment).words = none ∧
    ASSRenderer.create_styled_text
      { start := 0, end_ := 1, words := none, current_word_index := 0,
        current_word := "", display_text := none } {} = "" :=
  ⟨rfl, C10_styled_text_no_words _ {} (Or.inl rfl)⟩

theorem str_data_append (a b : String) : (a ++ b).data = a.data ++ b.data := rfl

theorem str_append_assoc (a b c : String) : a ++ b ++ c = a ++ (b ++ c) := by
  apply String.ext
  simp [str_data_append]

theorem isPrefixChars_append (p a b : List Char) (h : p.length ≤ a.length) :
    isPrefixChars p (a ++ b) = isPrefixChars p a := by
  induction p generalizing a with
  | nil => simp [isPrefixChars]
  | cons x xs ih =>
    cases a with
    | nil => simp at h
    | cons y ys =>
      simp only [List.cons_append, isPrefixChars, List.append_eq]
      rw [ih ys (by simpa using h)]

theorem strStarts_append (p a b : String) (h : p.length ≤ a.length) :
    strStarts p (a ++ b) = strStarts p a := by
  have : p.data.length ≤ a.data.length := h
  simp only [strStarts, str_data_append]
  exact isPrefixChars_append p.data a.data b.data this
theorem style_default_line_starts_style (fs ms mb : ℤ) (st : StyleConfig) :
    strStarts "Style:" (ASSRenderer.style_default_line fs ms mb st) = true := by
  unfold ASSRenderer.style_default_line
  simp only [str_append_assoc]
  rw [strStarts_append _ _ _ (by decide)]
  decide

theorem style_default_line_starts_full (fs ms mb : ℤ) (st : StyleConfig) :
    strStarts "Style: Default," (ASSRenderer.style_default_line fs ms mb st) = true := by
  unfold ASSRenderer.style_default_line
  simp only [str_append_assoc]
  rw [strStarts_append _ _ _ (by decide)]
  decide

theorem style_default_line_starts_dialogue (fs ms mb : ℤ) (st : StyleConfig) :
    strStarts "Dialogue:" (ASSRenderer.style_default_line fs ms mb st) = false := by
  unfold ASSRenderer.style_default_line
  simp only [str_append_assoc]
  rw [strStarts_append _ _ _ (by decide)]
  decide

theorem style_highlight_line_starts_style (fs ms mb : ℤ) (st : StyleConfig) :
    strStarts "Style:" (ASSRenderer.style_highlight_line fs ms mb st) = true := by
  unfold ASSRenderer.style_highlight_line
  simp only [str_append_assoc]
  rw [strStarts_append _ _ _ (by decide)]
  decide

theorem style_highlight_line_starts_full (fs ms mb : ℤ) (st : StyleConfig) :
    strStarts "Style: Highlight," (ASSRenderer.style_highlight_line fs ms mb st) = true := by
  unfold ASSRenderer.style_highlight_line
  simp only [str_append_assoc]
  rw [strStarts_append _ _ _ (by decide)]
  decide

theorem style_highlight_line_starts_dialogue (fs ms mb : ℤ) (st : StyleConfig) :
    strStarts "Dialogue:" (ASSRenderer.style_highlight_line fs ms mb st) = false := by
  unfold ASSRenderer.style_highlight_line
  simp only [str_append_assoc]
  rw [strStarts_append _ _ _ (by decide)]
  decide

theorem empty_style_line_starts_style (st : StyleConfig) (height : ℕ) :
    strStarts "Style:" (ASSRenderer.empty_style_line st height) = true := by
  unfold ASSRenderer.empty_style_line
  simp only [str_append_assoc]
  rw [strStarts_append _ _ _ (by decide)]
  decide

theorem empty_style_line_starts_full (st : StyleConfig) (height : ℕ) :
    strStarts "Style: Default," (ASSRenderer.empty_style_line st height) = true := by
  unfold ASSRenderer.empty_style_line
  simp only [str_append_assoc]
  rw [strStarts_append _ _ _ (by decide)]
  decide

theorem empty_style_line_starts_dialogue (st : StyleConfig) (height : ℕ) :
    strStarts "Dialogue:" (ASSRenderer.empty_style_line st height) = false := by
  unfold ASSRenderer.empty_style_line
  simp only [str_append_assoc]
  rw [strStarts_append _ _ _ (by decide)]
  decide

theorem strStarts_dialogue_line_dialogue (style : StyleConfig) (g : Segment) :
    strStarts "Dialogue:" (ASSRenderer.dialogue_line style g) = true := by
  unfold ASSRenderer.dialogue_line
  simp only [str_append_assoc]
  rw [strStarts_append _ _ _ (by decide)]
  decide

theorem strStarts_dialogue_line_style (style : StyleConfig) (g : Segment) :
    strStarts "Style:" (ASSRenderer.dialogue_line style g) = false := by
  unfold ASSRenderer.dialogue_line
  simp only [str_append_assoc]
  rw [strStarts_append _ _ _ (by decide)]
  decide

/-- C6: the word grouper maps the empty word sequence to the empty segment
sequence, and on the empty segment sequence the compiler emits exactly one
event line, the literal placeholder spanning 0 to 5 seconds with text
No speech detected, so the generated file is never header-only. -/
theorem C6_empty_input_fallback :
    (∀ wpg, VideoProcessor.create_word_groups [] wpg = []) ∧
    ∀ (style : StyleConfig) (width height : ℕ), style.noNewlines = true →
      (ASSRenderer.render_subtitles_lines [] width height style).filter
          (fun l => strStarts "Dialogue:" l) =
        ["Dialogue: 0,0:00:00.00,0:00:05.00,Default,,0,0,0,,No speech detected"] := by
  constructor
  · intro wpg; rfl
  · intro style width height hnl
    have h1 : strStarts "Dialogue:" "[Script Info]" = false := by decide
    have h2 : strStarts "Dialogue:" "Title: Subtitle Ninja" = false := by decide
    have h3 : strStarts "Dialogue:" "ScriptType: v4.00+" = false := by decide
    have h4 : strStarts "Dialogue:" "" = false := by decide
    have h5 : strStarts "Dialogue:" "[V4+ Styles]" = false := by decide
    have h6 : strStarts "Dialogue:" "Format: Name, Fontname, Fontsize, PrimaryColour, SecondaryColour, OutlineColour, BackColour, Bold, Italic, Underline, StrikeOut, ScaleX, ScaleY, Spacing, Angle, BorderStyle, Outline, Shadow, Alignment, MarginL, MarginR, MarginV, Encoding" = false := by decide
    have h7 : strStarts "Dialogue:" "[Events]" = false := by decide
    have h8 : strStarts "Dialogue:" "Format: Layer, Start, End, Style, Name, MarginL, MarginR, MarginV, Effect, Text" = false := by decide
    have h9 : strStarts "Dialogue:" "Dialogue: 0,0:00:00.00,0:00:05.00,Default,,0,0,0,,No speech detected" = true := by decide
    simp only [ASSRenderer.render_subtitles_lines, if_pos rfl, if_true,
      ASSRenderer.generate_empty_ass_lines, List.filter_cons, List.filter_nil,
      h1, h2, h3, h4, h5, h6, h7, h8, h9, empty_style_line_starts_dialogue,
      Bool.false_eq_true, if_false]

theorem C6_empty_input_fallback_witness :
    (({} : StyleConfig).noNewlines = true) ∧
    (ASSRenderer.render_subtitles_lines [] 1920 1080 {}).filter
        (fun l => strStarts "Dialogue:" l) =
      ["Dialogue: 0,0:00:00.00,0:00:05.00,Default,,0,0,0,,No speech detected"] :=
  ⟨by decide, C6_empty_input_fallback.2 {} 1920 1080 (by decide)⟩

/-- C3 counterexample: at the empty segment sequence the compiler takes
the fallback path, whose header holds a single style record (Default
only) and whose event count is 1, not 0: the claim fails for the empty
sequence. -/
theorem C3_counterexample :
    ¬(countStarting "Style:" (ASSRenderer.render_subtitles_lines [] 1920 1080 {}) = 2 ∧
      countStarting "Dialogue:" (ASSRenderer.render_subtitles_lines [] 1920 1080 {}) =
        ([] : List Segment).length) := by
  decide

/-- C3 amended: for every nonempty segment sequence the generated markup
lines contain exactly two style record lines, Default then Highlight, and
one event line per segment; for the empty segment sequence the fallback
file is generated instead, with a single Default style record and the one
placeholder event line. -/
theorem C3_two_styles_one_event_per_segment (segments : List Segment)
    (width height : ℕ) (style : StyleConfig)
    (hs : style.noNewlines = true) (hg : segments.all Segment.noNewlines = true) :
    (segments ≠ [] →
      ((ASSRenderer.render_subtitles_lines segments width height style).filter
          (fun l => strStarts "Style:" l) =
        [ASSRenderer.style_default_line (ASSRenderer.font_size_of height style) 20
            (ASSRenderer.margin_bottom_of height style) style,
         ASSRenderer.style_highlight_line (ASSRenderer.font_size_of height style) 20
            (ASSRenderer.margin_bottom_of height style) style]) ∧
      strStarts "Style: Default,"
          (ASSRenderer.style_default_line (ASSRenderer.font_size_of height style) 20
            (ASSRenderer.margin_bottom_of height style) style) = true ∧
      strStarts "Style: Highlight,"
          (ASSRenderer.style_highlight_line (ASSRenderer.font_size_of height style) 20
            (ASSRenderer.margin_bottom_of height style) style) = true ∧
      countStarting "Dialogue:"
          (ASSRenderer.render_subtitles_lines segments width height style) =
        segments.length) ∧
    (segments = [] →
      ((ASSRenderer.render_subtitles_lines segments width height style).filter
          (fun l => strStarts "Style:" l) = [ASSRenderer.empty_style_line style height]) ∧
      strStarts "Style: Default," (ASSRenderer.empty_style_line style height) = true ∧
      countStarting "Dialogue:"
          (ASSRenderer.render_subtitles_lines segments width height style) = 1) := by
  have e1 : strStarts "Style:" "[Script Info]" = false := by decide
  have e2 : ∀ r : String, strStarts "Style:" ("Title: Subtitle Ninja - " ++ r) = false := by
    intro r; rw [strStarts_append _ _ _ (by decide)]; decide
  have e2e : strStarts "Style:" "Title: Subtitle Ninja" = false := by decide
  have e3 : strStarts "Style:" "ScriptType: v4.00+" = false := by decide
  have e4 : strStarts "Style:" "" = false := by decide
  have e5 : strStarts "Style:" "[V4+ Styles]" = false := by decide
  have e6 : strStarts "Style:" "Format: Name, Fontname, Fontsize, PrimaryColour, SecondaryColour, OutlineColour, BackColour, Bold, Italic, Underline, StrikeOut, ScaleX, ScaleY, Spacing, Angle, BorderStyle, Outline, Shadow, Alignment, MarginL, MarginR, MarginV, Encoding" = false := by decide
  have e9 : strStarts "Style:" "[Events]" = false := by decide
  have e10 : strStarts "Style:" "Format: Layer, Start, End, Style, Name, MarginL, MarginR, MarginV, Effect, Text" = false := by decide
  have e11 : strStarts "Style:" "Dialogue: 0,0:00:00.00,0:00:05.00,Default,,0,0,0,,No speech detected" = false := by decide
  have d1 : strStarts "Dialogue:" "[Script Info]" = false := by decide
  have d2 : ∀ r : String, strStarts "Dialogue:" ("Title: Subtitle Ninja - " ++ r) = false := by
    intro r; rw [strStarts_append _ _ _ (by decide)]; decide
  have d2e : strStarts "Dialogue:" "Title: Subtitle Ninja" = false := by decide
  have d3 : strStarts "Dialogue:" "ScriptType: v4.00+" = false := by decide
  have d4 : strStarts "Dialogue:" "" = false := by decide
  have d5 : strStarts "Dialogue:" "[V4+ Styles]" = false := by decide
  have d6 : strStarts "Dialogue:" "Format: Name, Fontname, Fontsize, PrimaryColour, SecondaryColour, OutlineColour, BackColour, Bold, Italic, Underline, StrikeOut, ScaleX, ScaleY, Spacing, Angle, BorderStyle, Outline, Shadow, Alignment, MarginL, MarginR, MarginV, Encoding" = false := by decide
  have d9 : strStarts "Dialogue:" "[Events]" = false := by decide
  have d10 : strStarts "Dialogue:" "Format: Layer, Start, End, Style, Name, MarginL, MarginR, MarginV, Effect, Text" = false := by decide
  have d11 : strStarts "Dialogue:" "Dialogue: 0,0:00:00.00,0:00:05.00,Default,,0,0,0,,No speech detected" = true := by decide
  constructor
  · intro hne
    refine ⟨?_, style_default_line_starts_full _ _ _ _,
      style_highlight_line_starts_full _ _ _ _, ?_⟩
    · simp only [ASSRenderer.render_subtitles_lines, if_neg hne,
        ASSRenderer.generate_ass_content_lines, ASSRenderer.generate_header_lines,
        List.filter_append, List.filter_cons, List.filter_nil,
        e1, e2, e3, e4, e5, e6, e9, e10,
        style_default_line_starts_style, style_highlight_line_starts_style,
        Bool.false_eq_true, if_false, if_true, List.filter_map]
      have hcomp : (fun l => strStarts "Style:" l) ∘ ASSRenderer.dialogue_line style =
          fun _ => false := by
        funext g; exact strStarts_dialogue_line_style style g
      rw [hcomp]
      simp
    · unfold countStarting
      simp only [ASSRenderer.render_subtitles_lines, if_neg hne,
        ASSRenderer.generate_ass_content_lines, ASSRenderer.generate_header_lines,
        List.filter_append, List.filter_cons, List.filter_nil,
        d1, d2, d3, d4, d5, d6, d9, d10,
        style_default_line_starts_dialogue, style_highlight_line_starts_dialogue,
        Bool.false_eq_true, if_false, if_true, List.filter_map]
      have hcomp : (fun l => strStarts "Dialogue:" l) ∘ ASSRenderer.dialogue_line style =
          fun _ => true := by
        funext g; exact strStarts_dialogue_line_dialogue style g
      rw [hcomp]
      simp
  · intro heq
    subst heq
    refine ⟨?_, empty_style_line_starts_full _ _, ?_⟩
    · simp only [ASSRenderer.render_subtitles_lines, if_pos rfl, if_true,
        ASSRenderer.generate_empty_ass_lines, List.filter_cons, List.filter_nil,
        e1, e2e, e3, e4, e5, e6, e9, e10, e11, empty_style_line_starts_style,
        Bool.false_eq_true, if_false]
    · unfold countStarting
      simp only [ASSRenderer.render_subtitles_lines, if_pos rfl, if_true,
        ASSRenderer.generate_empty_ass_lines, List.filter_cons, List.filter_nil,
        d1, d2e, d3, d4, d5, d6, d9, d10, d11, empty_style_line_starts_dialogue,
        Bool.false_eq_true, if_false, List.length_cons, List.length_nil]

theorem C3_two_styles_one_event_per_segment_witness :
    (({} : StyleConfig).noNewlines = true) ∧
    ([demoSeg0].all Segment.noNewlines = true) ∧
    countStarting "Dialogue:" (ASSRenderer.render_subtitles_lines [demoSeg0] 1920 1080 {}) =
      [demoSeg0].length :=
  ⟨by decide, by decide,
    ((C3_two_styles_one_event_per_segment [demoSeg0] 1920 1080 {} (by decide) (by decide)).1
      (List.cons_ne_nil _ _)).2.2.2⟩

theorem pyMod_eq_mul_fract (a : ℚ) {b : ℚ} (hb : b ≠ 0) :
    pyMod a b = b * Int.fract (a / b) := by
  unfold pyMod
  rw [Int.fract, mul_sub, mul_div_cancel₀ a hb]

theorem pyMod_nonneg (a : ℚ) {b : ℚ} (hb : 0 < b) : 0 ≤ pyMod a b := by
  rw [pyMod_eq_mul_fract a hb.ne']
  exact mul_nonneg hb.le (Int.fract_nonneg _)

theorem pyMod_lt (a : ℚ) {b : ℚ} (hb : 0 < b) : pyMod a b < b := by
  rw [pyMod_eq_mul_fract a hb.ne']
  calc b * Int.fract (a / b) < b * 1 :=
        mul_lt_mul_of_pos_left (Int.fract_lt_one _) hb
    _ = b := mul_one b

theorem pyMod_one_eq_fract (a : ℚ) : pyMod a 1 = Int.fract a := by
  unfold pyMod Int.fract
  rw [div_one, one_mul]

theorem floor_time_decomp (q : ℚ) :
    ⌊q⌋ = 3600 * ⌊q / 3600⌋ + 60 * ⌊pyMod q 3600 / 60⌋ + ⌊pyMod q 60⌋ := by
  have h1 : pyMod q 3600 / 60 = q / 60 - ((60 * ⌊q / 3600⌋ : ℤ) : ℚ) := by
    unfold pyMod
    push_cast
    ring
  have h2 : pyMod q 60 = q - ((60 * ⌊q / 60⌋ : ℤ) : ℚ) := by
    unfold pyMod
    push_cast
    ring
  rw [h1, h2, Int.floor_sub_int, Int.floor_sub_int]
  ring

/-- C9: for nonnegative seconds both time encoders decompose the value
into hours, minutes in 0..59, whole seconds in 0..59 and a sub-second
fraction truncated (not rounded) to two digits (primary format) or three
digits (SRT format), rendered as zero-padded fields; in particular 0
renders as 0:00:00.00 and 00:00:00,000, and 3725.456 as 1:02:05.45 and
01:02:05,456. -/
theorem C9_time_encoding :
    (∀ q : ℚ, 0 ≤ q →
      0 ≤ ⌊q / 3600⌋ ∧
      0 ≤ ⌊pyMod q 3600 / 60⌋ ∧ ⌊pyMod q 3600 / 60⌋ < 60 ∧
      0 ≤ ⌊pyMod q 60⌋ ∧ ⌊pyMod q 60⌋ < 60 ∧
      0 ≤ ⌊pyMod q 1 * 100⌋ ∧ ⌊pyMod q 1 * 100⌋ < 100 ∧
      0 ≤ ⌊pyMod q 1 * 1000⌋ ∧ ⌊pyMod q 1 * 1000⌋ < 1000 ∧
      ⌊q⌋ = 3600 * ⌊q / 3600⌋ + 60 * ⌊pyMod q 3600 / 60⌋ + ⌊pyMod q 60⌋ ∧
      ⌊pyMod q 1 * 100⌋ = ⌊Int.fract q * 100⌋ ∧
      ⌊pyMod q 1 * 1000⌋ = ⌊Int.fract q * 1000⌋ ∧
      ASSRenderer.seconds_to_ass_time q =
        toString ⌊q / 3600⌋ ++ ":" ++ padZ 2 ⌊pyMod q 3600 / 60⌋ ++ ":" ++
          padZ 2 ⌊pyMod q 60⌋ ++ "." ++ padZ 2 ⌊pyMod q 1 * 100⌋ ∧
      VideoProcessor.seconds_to_srt_time q =
        padZ 2 ⌊q / 3600⌋ ++ ":" ++ padZ 2 ⌊pyMod q 3600 / 60⌋ ++ ":" ++
          padZ 2 ⌊pyMod q 60⌋ ++ "," ++ padZ 3 ⌊pyMod q 1 * 1000⌋) ∧
    ASSRenderer.seconds_to_ass_time 0 = "0:00:00.00" ∧
    VideoProcessor.seconds_to_srt_time 0 = "00:00:00,000" ∧
    ASSRenderer.seconds_to_ass_time 3725.456 = "1:02:05.45" ∧
    VideoProcessor.seconds_to_srt_time 3725.456 = "01:02:05,456" := by
  have z1 : ⌊(0:ℚ) / 3600⌋ = 0 := by norm_num
  have z2 : pyMod (0:ℚ) 3600 = 0 := by unfold pyMod; norm_num
  have z3 : pyMod (0:ℚ) 60 = 0 := by unfold pyMod; norm_num
  have z4 : pyMod (0:ℚ) 1 = 0 := by unfold pyMod; norm_num
  have z5 : ⌊(0:ℚ) / 60⌋ = 0 := by norm_num
  have z6 : ⌊(0:ℚ)⌋ = 0 := by norm_num
  have z7 : ⌊(0:ℚ) * 100⌋ = 0 := by norm_num
  have z8 : ⌊(0:ℚ) * 1000⌋ = 0 := by norm_num
  have w1 : ⌊(3725.456:ℚ) / 3600⌋ = 1 := by norm_num
  have w2 : pyMod (3725.456:ℚ) 3600 = 125.456 := by unfold pyMod; norm_num
  have w3 : pyMod (3725.456:ℚ) 60 = 5.456 := by unfold pyMod; norm_num
  have w4 : pyMod (3725.456:ℚ) 1 = 0.456 := by unfold pyMod; norm_num
  have w5 : ⌊(125.456:ℚ) / 60⌋ = 2 := by norm_num
  have w6 : ⌊(5.456:ℚ)⌋ = 5 := by norm_num
  have w7 : ⌊(0.456:ℚ) * 100⌋ = 45 := by norm_num
  have w8 : ⌊(0.456:ℚ) * 1000⌋ = 456 := by norm_num
  refine ⟨?_, ?_, ?_, ?_, ?_⟩
  · intro q hq
    have hm3600 : 0 ≤ pyMod q 3600 := pyMod_nonneg q (by norm_num)
    have hm3600l : pyMod q 3600 < 3600 := pyMod_lt q (by norm_num)
    have hm60 : 0 ≤ pyMod q 60 := pyMod_nonneg q (by norm_num)
    have hm60l : pyMod q 60 < 60 := pyMod_lt q (by norm_num)
    have hm1 : 0 ≤ pyMod q 1 := pyMod_nonneg q one_pos
    have hm1l : pyMod q 1 < 1 := pyMod_lt q one_pos
    refine ⟨?_, ?_, ?_, ?_, ?_, ?_, ?_, ?_, ?_, floor_time_decomp q, ?_, ?_, rfl, rfl⟩
    · exact Int.le_floor.mpr (by push_cast; exact div_nonneg hq (by norm_num))
    · exact Int.le_floor.mpr (by push_cast; exact div_nonneg hm3600 (by norm_num))
    · refine Int.floor_lt.mpr ?_
      push_cast
      rw [div_lt_iff (by norm_num : (0:ℚ) < 60)]
      linarith
    · exact Int.le_floor.mpr (by push_cast; exact hm60)
    · exact Int.floor_lt.mpr (by push_cast; exact hm60l)
    · exact Int.le_floor.mpr (by push_cast; exact mul_nonneg hm1 (by norm_num))
    · exact Int.floor_lt.mpr (by push_cast; linarith)
    · exact Int.le_floor.mpr (by push_cast; exact mul_nonneg hm1 (by norm_num))
    · exact Int.floor_lt.mpr (by push_cast; linarith)
    · rw [pyMod_one_eq_fract]
    · rw [pyMod_one_eq_fract]
  · unfold ASSRenderer.seconds_to_ass_time
    rw [z2, z3, z4, z1, z5, z6, z7]
    decide
  · unfold VideoProcessor.seconds_to_srt_time
    rw [z2, z3, z4, z1, z5, z6, z8]
    decide
  · unfold ASSRenderer.seconds_to_ass_time
    rw [w2, w3, w4, w1, w5, w6, w7]
    decide
  · unfold VideoProcessor.seconds_to_srt_time
    rw [w2, w3, w4, w1, w5, w6, w8]
    decide

theorem C9_time_encoding_witness :
    (0 : ℚ) ≤ 0 ∧ ⌊pyMod (0 : ℚ) 3600 / 60⌋ < 60 :=
  ⟨by decide, (C9_time_encoding.1 0 (by decide)).2.2.1⟩

/-- C4 counterexample: at height 999 with the default style
(font_size_ratio 0.05) the code computes max(int(999 * 0.05), 16) =
max(49, 16) = 49 via truncation, while the claimed formula
max(round(999 * 0.05), 16) gives 50: the claim's round is wrong, the code
truncates. -/
theorem C4_counterexample :
    ASSRenderer.font_size_of 999 {} = 49 ∧
    max (round ((999 : ℚ) * ({} : StyleConfig).font_size_ratio)) 16 = 50 ∧
    ASSRenderer.font_size_of 999 {} ≠
      max (round ((999 : ℚ) * ({} : StyleConfig).font_size_ratio)) 16 := by
  have ha : ASSRenderer.font_size_of 999 {} = 49 := by
    unfold ASSRenderer.font_size_of pyInt
    rw [if_pos (by norm_num)]
    norm_num
  have hb : max (round ((999 : ℚ) * ({} : StyleConfig).font_size_ratio)) 16 = 50 := by
    rw [show round ((999 : ℚ) * ({} : StyleConfig).font_size_ratio) = 50 by
      norm_num [round_eq]]
    decide
  refine ⟨ha, hb, ?_⟩
  rw [ha, hb]
  decide

/-- C4 amended: the font size is max(int(height * fontSizeRatio), 16) and
the bottom margin is max(int(height * marginRatio), 20), where int()
truncates toward zero; for nonnegative ratios this is the floor, not
round.  The side margin passed to the header by the generator is the
constant 20. -/
theorem C4_font_size_and_margins (height : ℕ) (style : StyleConfig)
    (width : ℕ) (segments : List Segment)
    (h1 : 0 ≤ style.font_size_ratio) (h2 : 0 ≤ style.margin_ratio) :
    ASSRenderer.font_size_of height style = max ⌊(height : ℚ) * style.font_size_ratio⌋ 16 ∧
    ASSRenderer.margin_bottom_of height style = max ⌊(height : ℚ) * style.margin_ratio⌋ 20 ∧
    ASSRenderer.generate_ass_content_lines segments width height style =
      ASSRenderer.generate_header_lines (ASSRenderer.font_size_of height style) 20
        (ASSRenderer.margin_bottom_of height style) style ++
      segments.map (ASSRenderer.dialogue_line style) := by
  refine ⟨?_, ?_, rfl⟩
  · unfold ASSRenderer.font_size_of pyInt
    rw [if_pos (mul_nonneg (Nat.cast_nonneg height) h1)]
  · unfold ASSRenderer.margin_bottom_of pyInt
    rw [if_pos (mul_nonneg (Nat.cast_nonneg height) h2)]

/-- A style with integer ratios, used to instantiate theorems about the
size computation at a concrete input. -/
def zeroRatioStyle : StyleConfig :=
  { font_size_ratio := 0, margin_ratio := 0 }

theorem C4_font_size_and_margins_witness :
    (0 : ℚ) ≤ zeroRatioStyle.font_size_ratio ∧
    (0 : ℚ) ≤ zeroRatioStyle.margin_ratio ∧
    ASSRenderer.font_size_of 1080 zeroRatioStyle =
      max ⌊((1080 : ℕ) : ℚ) * zeroRatioStyle.font_size_ratio⌋ 16 :=
  ⟨by decide, by decide,
    (C4_font_size_and_margins 1080 zeroRatioStyle 1920 [] (by decide) (by decide)).1⟩
